import Mathlib

/-!
Verification development for the azure-voice-live-react client library.

The TypeScript sources are embedded shallowly:
* runtime JavaScript values flowing through the session builder are modelled
  by the inductive `JVal` (JSON-like values; an object field that is absent
  models the JavaScript `undefined`);
* `deepMerge`, `convertToSessionUpdate`, `convertVoiceConfig`,
  `convertTurnDetection` and `buildSessionConfig` follow
  src/utils/sessionBuilder.ts;
* the playback scheduler (`playAudioChunk`, `stopAudioPlayback`,
  `getAudioPlaybackTime`), the orchestrator event dispatch (`sendEvent`,
  `handleMessage`) and `connect` follow the useVoiceLive hook;
* `startCapture` follows the useAudioCapture hook.
Numbers are modelled as rationals, time on the audio clock as a rational
number of seconds.
-/

/-- JSON-like runtime value. An object is an association list of fields in
insertion order; a field bound to JavaScript `undefined` is modelled as an
absent key. -/
inductive JVal where
  | vnull : JVal
  | vbool : Bool → JVal
  | vnum : ℚ → JVal
  | vstr : String → JVal
  | varr : List JVal → JVal
  | vobj : List (String × JVal) → JVal

/-- Field lookup in an object's field list (first match), i.e. JavaScript
property access; `none` models `undefined`. -/
def jlookup : List (String × JVal) → String → Option JVal
  | [], _ => none
  | (k', v) :: rest, k => if k' = k then some v else jlookup rest k

/-- Property assignment `result[key] = v`: an existing key keeps its position,
a new key is appended (JavaScript object insertion-order semantics). -/
def setField : List (String × JVal) → String → JVal → List (String × JVal)
  | [], k, v => [(k, v)]
  | (k', w) :: rest, k, v =>
    if k' = k then (k, v) :: rest else (k', w) :: setField rest k v

/-- JavaScript truthiness of a defined value. -/
def truthy : JVal → Bool
  | JVal.vnull => false
  | JVal.vbool b => b
  | JVal.vnum q => q ≠ 0
  | JVal.vstr s => s ≠ ""
  | JVal.varr _ => true
  | JVal.vobj _ => true

mutual

/-- Value stored for one source field during `deepMerge` (the body of the
for-loop in src/utils/sessionBuilder.ts): an explicit `null` wins (feature
disable); a plain object over a plain-object target value recurses;
anything else (primitives, arrays, object over non-object or over an absent
target value) is the source value itself. -/
def newFieldVal : Option JVal → JVal → JVal
  | _, JVal.vnull => JVal.vnull
  | some (JVal.vobj tfields), JVal.vobj sfields =>
    JVal.vobj (deepMerge tfields sfields)
  | _, sv => sv
termination_by _ sv => sizeOf sv
decreasing_by
  all_goals simp_wf

/-- Deep merge of a source (user) object over a target (defaults) object,
from `deepMerge` in src/utils/sessionBuilder.ts: the result starts as a
copy of the target and each source field is assigned over it in order
(an absent source field — JavaScript `undefined` — simply does not occur
in the field list, matching the skip branch). -/
def deepMerge : List (String × JVal) → List (String × JVal) →
    List (String × JVal)
  | target, [] => target
  | target, (k, sv) :: rest =>
    deepMerge (setField target k (newFieldVal (jlookup target k) sv)) rest
termination_by _ s => sizeOf s
decreasing_by
  all_goals simp_wf
  all_goals omega

end

/-- Well-formedness of a JavaScript object's field list: keys are distinct
(true of every actual JavaScript object). -/
def nodupKeys (l : List (String × JVal)) : Prop := (l.map Prod.fst).Nodup

instance (l : List (String × JVal)) : Decidable (nodupKeys l) := by
  unfold nodupKeys; infer_instance

/-- Modelled from the spec's words (the per-field merge rule of the claim):
a field the user sets to null is null; a field the user leaves undefined
takes the default's value; a plain nested object on both sides is merged
recursively; an array, or any other value, takes the user's value. -/
def specMergeField (tv sv : Option JVal) : Option JVal :=
  match sv with
  | none => tv
  | some JVal.vnull => some JVal.vnull
  | some (JVal.vobj sfields) =>
    match tv with
    | some (JVal.vobj tfields) => some (JVal.vobj (deepMerge tfields sfields))
    | _ => some (JVal.vobj sfields)
  | some v => some v

/-- Conditionally emitted wire field: one session assignment of the form
`session.name = x` guarded so that it only happens when `x` is defined.
An assignment of an undefined value and no assignment agree after the
event's JSON serialisation (JSON.stringify drops undefined properties), so
both are modelled as an absent field. -/
def condEntry (name : String) (v : Option JVal) : List (String × JVal) :=
  match v with
  | some x => [(name, x)]
  | none => []

/-- Filter through a JavaScript `if (x)` truthiness guard. -/
def truthyOpt (v : Option JVal) : Option JVal :=
  match v with
  | some x => if truthy x then some x else none
  | none => none

/-- Property access `v.key` on an already-defined value: field lookup on an
object, `undefined` on any primitive. -/
def objGet (v : JVal) (k : String) : Option JVal :=
  match v with
  | JVal.vobj fields => jlookup fields k
  | _ => none

/-- Wire shaping of a nullable config field: the source pattern
`if (x !== undefined) ... if (x === null) session.f = null else session.f =
shape(x)` used for echo cancellation, noise reduction, transcription and
turn detection in convertToSessionUpdate. -/
def nullableShape : Option JVal → (JVal → JVal) → Option JVal
  | none, _ => none
  | some JVal.vnull, _ => some JVal.vnull
  | some x, f => some (f x)

/-- Voice wire projection, from `convertVoiceConfig` in
src/utils/sessionBuilder.ts: a bare string becomes an object with only a
name; otherwise name is copied, type and rate are emitted when truthy,
temperature when defined. -/
def convertVoiceConfig (voice : JVal) : JVal :=
  match voice with
  | JVal.vstr s => JVal.vobj [("name", JVal.vstr s)]
  | v =>
    JVal.vobj (condEntry "name" (objGet v "name") ++
      condEntry "type" (truthyOpt (objGet v "type")) ++
      condEntry "temperature" (objGet v "temperature") ++
      condEntry "rate" (truthyOpt (objGet v "rate")))

/-- Turn-detection wire projection, from `convertTurnDetection` in
src/utils/sessionBuilder.ts (snake_case renaming, truthiness guards on
type, eagerness and languages, defined-guards on the numeric and boolean
fields, nested end-of-utterance object when truthy). -/
def convertTurnDetection (config : JVal) : JVal :=
  JVal.vobj (
    condEntry "type" (truthyOpt (objGet config "type")) ++
    condEntry "threshold" (objGet config "threshold") ++
    condEntry "prefix_padding_ms" (objGet config "prefixPaddingMs") ++
    condEntry "speech_duration_ms" (objGet config "speechDurationMs") ++
    condEntry "silence_duration_ms" (objGet config "silenceDurationMs") ++
    condEntry "create_response" (objGet config "createResponse") ++
    condEntry "interrupt_response" (objGet config "interruptResponse") ++
    condEntry "eagerness" (truthyOpt (objGet config "eagerness")) ++
    condEntry "remove_filler_words" (objGet config "removeFillerWords") ++
    condEntry "languages" (truthyOpt (objGet config "languages")) ++
    condEntry "auto_truncate" (objGet config "autoTruncate") ++
    condEntry "end_of_utterance_detection"
      ((truthyOpt (objGet config "endOfUtteranceDetection")).map (fun e =>
        JVal.vobj (condEntry "model" (objGet e "model") ++
          condEntry "threshold_level" (objGet e "thresholdLevel") ++
          condEntry "timeout_ms" (objGet e "timeoutMs")))))

/-- Avatar video sub-object built inline in convertToSessionUpdate. -/
def convertAvatarVideo (video : JVal) : JVal :=
  JVal.vobj (condEntry "codec" (objGet video "codec") ++
    condEntry "bitrate" (objGet video "bitrate") ++
    condEntry "resolution" (objGet video "resolution") ++
    condEntry "crop" ((truthyOpt (objGet video "crop")).map (fun c =>
      JVal.vobj (condEntry "top_left" (objGet c "topLeft") ++
        condEntry "bottom_right" (objGet c "bottomRight")))) ++
    condEntry "background" ((truthyOpt (objGet video "background")).map (fun b =>
      JVal.vobj (condEntry "color" (objGet b "color") ++
        condEntry "image_url" (objGet b "imageUrl")))))

/-- Avatar sub-object built inline in convertToSessionUpdate. -/
def convertAvatar (avatar : JVal) : JVal :=
  JVal.vobj (condEntry "character" (objGet avatar "character") ++
    condEntry "style" (objGet avatar "style") ++
    condEntry "customized" (objGet avatar "customized") ++
    condEntry "ice_servers" (truthyOpt (objGet avatar "iceServers")) ++
    condEntry "video" ((truthyOpt (objGet avatar "video")).map convertAvatarVideo))

/-- Wire projection of a merged config, from `convertToSessionUpdate` in
src/utils/sessionBuilder.ts, one conditional assignment per field in source
order. -/
def convertToSessionUpdate (config : List (String × JVal)) :
    List (String × JVal) :=
  condEntry "instructions" (jlookup config "instructions") ++
  condEntry "modalities" (truthyOpt (jlookup config "modalities")) ++
  condEntry "temperature" (jlookup config "temperature") ++
  condEntry "max_response_output_tokens"
    (jlookup config "maxResponseOutputTokens") ++
  condEntry "input_audio_format" (truthyOpt (jlookup config "inputAudioFormat")) ++
  condEntry "output_audio_format"
    (truthyOpt (jlookup config "outputAudioFormat")) ++
  condEntry "input_audio_sampling_rate"
    (truthyOpt (jlookup config "inputAudioSamplingRate")) ++
  condEntry "input_audio_echo_cancellation"
    (nullableShape (jlookup config "inputAudioEchoCancellation") (fun v =>
      JVal.vobj (condEntry "type" (objGet v "type")))) ++
  condEntry "input_audio_noise_reduction"
    (nullableShape (jlookup config "inputAudioNoiseReduction") (fun v =>
      JVal.vobj (condEntry "type" (objGet v "type")))) ++
  condEntry "input_audio_transcription"
    (nullableShape (jlookup config "inputAudioTranscription") (fun v =>
      JVal.vobj (condEntry "model" (objGet v "model") ++
        condEntry "language" (objGet v "language") ++
        condEntry "prompt" (objGet v "prompt")))) ++
  condEntry "voice" ((truthyOpt (jlookup config "voice")).map convertVoiceConfig) ++
  condEntry "turn_detection"
    (nullableShape (jlookup config "turnDetection") convertTurnDetection) ++
  condEntry "tools" (truthyOpt (jlookup config "tools")) ++
  condEntry "tool_choice" (truthyOpt (jlookup config "toolChoice")) ++
  condEntry "output_audio_timestamp_types"
    (truthyOpt (jlookup config "outputAudioTimestampTypes")) ++
  condEntry "animation" ((truthyOpt (jlookup config "animation")).map (fun v =>
    JVal.vobj (condEntry "outputs" (objGet v "outputs")))) ++
  condEntry "avatar" ((truthyOpt (jlookup config "avatar")).map convertAvatar)

/-- Default session configuration, from DEFAULT_SESSION_CONFIG in
src/utils/sessionBuilder.ts. -/
def DEFAULT_SESSION_CONFIG : List (String × JVal) := [
  ("modalities", JVal.varr [JVal.vstr "text", JVal.vstr "audio"]),
  ("temperature", JVal.vnum 0.8),
  ("maxResponseOutputTokens", JVal.vstr "inf"),
  ("inputAudioFormat", JVal.vstr "pcm16"),
  ("outputAudioFormat", JVal.vstr "pcm16"),
  ("inputAudioSamplingRate", JVal.vnum 24000),
  ("inputAudioEchoCancellation",
    JVal.vobj [("type", JVal.vstr "server_echo_cancellation")]),
  ("inputAudioNoiseReduction",
    JVal.vobj [("type", JVal.vstr "azure_deep_noise_suppression")]),
  ("turnDetection", JVal.vobj [
    ("type", JVal.vstr "azure_semantic_vad"),
    ("threshold", JVal.vnum 0.5),
    ("prefixPaddingMs", JVal.vnum 300),
    ("speechDurationMs", JVal.vnum 80),
    ("silenceDurationMs", JVal.vnum 500),
    ("removeFillerWords", JVal.vbool false),
    ("interruptResponse", JVal.vbool true),
    ("createResponse", JVal.vbool true)]),
  ("tools", JVal.varr []),
  ("toolChoice", JVal.vstr "auto")]

/-- Session builder entry point, from `buildSessionConfig` in
src/utils/sessionBuilder.ts: no user config projects the defaults alone,
otherwise the user config is deep-merged over the defaults and the merge
result is projected. -/
def buildSessionConfig (userConfig : Option (List (String × JVal))) :
    List (String × JVal) :=
  match userConfig with
  | none => convertToSessionUpdate DEFAULT_SESSION_CONFIG
  | some u => convertToSessionUpdate (deepMerge DEFAULT_SESSION_CONFIG u)

/-- Base64 alphabet used by the wire audio transport. -/
def b64Alphabet : List Char :=
  "ABCDEFGHIJKLMNOPQRSTUVWXYZabcdefghijklmnopqrstuvwxyz0123456789+/".data

/-- Character for one base64 sextet. -/
def b64Char (n : ℕ) : Char := b64Alphabet.getD n 'A'

/-- Sextet value of one base64 character (none for a character outside the
alphabet, matching the browser's InvalidCharacterError). -/
def b64CharValue (c : Char) : Option ℕ := b64Alphabet.findIdx? (· = c)

/-- Modelled from the spec: `arrayBufferToBase64` lives in
utils/audioHelpers.ts, which is not among the provided sources (only its
unit tests are). Per the spec's audio-format contract and the tests'
expected outputs it is standard padded base64 of the raw bytes; the
source's 32-KB chunking only splits the intermediate binary-string
construction and does not change the encoding. Bytes are naturals below
256. -/
def b64EncodeBytes : List ℕ → List Char
  | [] => []
  | [a] => [b64Char (a / 4), b64Char (a % 4 * 16), '=', '=']
  | [a, b] =>
    [b64Char (a / 4), b64Char (a % 4 * 16 + b / 16), b64Char (b % 16 * 4), '=']
  | a :: b :: c :: rest =>
    b64Char (a / 4) :: b64Char (a % 4 * 16 + b / 16) ::
      b64Char (b % 16 * 4 + c / 64) :: b64Char (c % 64) :: b64EncodeBytes rest

/-- Modelled from the spec: the byte-to-text direction of the wire audio
transport (see `b64EncodeBytes`). -/
def arrayBufferToBase64 (bytes : List ℕ) : String :=
  String.mk (b64EncodeBytes bytes)

/-- Modelled from the spec: the browser primitive `atob` used by the
playback decode path (base64 text to raw bytes), restricted to canonical
padded input; any other input is an error (none). The empty string decodes
to the empty byte sequence. -/
def atobBytes : List Char → Option (List ℕ)
  | [] => some []
  | c1 :: c2 :: c3 :: c4 :: rest =>
    match b64CharValue c1, b64CharValue c2 with
    | some n1, some n2 =>
      if c3 = '=' then
        if c4 = '=' ∧ rest = [] then some [n1 * 4 + n2 / 16] else none
      else
        match b64CharValue c3 with
        | some n3 =>
          if c4 = '=' then
            if rest = [] then
              some [n1 * 4 + n2 / 16, n2 % 16 * 16 + n3 / 4]
            else none
          else
            match b64CharValue c4 with
            | some n4 =>
              (atobBytes rest).map (fun tail =>
                (n1 * 4 + n2 / 16) :: (n2 % 16 * 16 + n3 / 4) ::
                  (n3 % 4 * 64 + n4) :: tail)
            | none => none
        | none => none
    | _, _ => none
  | _ => none

/-- Decode a base64 string to bytes (browser `atob`, see `atobBytes`). -/
def atob (s : String) : Option (List ℕ) := atobBytes s.data

/-- 16-bit signed little-endian sample decoding of a byte sequence, from
the `new Int16Array(bytes.buffer)` step of playAudioChunk (two's complement
on consecutive byte pairs). -/
def bytesToInt16 : List ℕ → List ℤ
  | a :: b :: rest =>
    (if a + 256 * b < 32768 then ((a + 256 * b : ℕ) : ℤ)
     else ((a + 256 * b : ℕ) : ℤ) - 65536) :: bytesToInt16 rest
  | _ => []

/-- Normalisation of one PCM16 sample to floating point, from the
`sample / 32768.0` step of playAudioChunk. -/
def pcm16ToFloat (sample : ℤ) : ℚ := (sample : ℚ) / 32768

/-- One scheduled playback buffer (an AudioBufferSourceNode that has been
started): its scheduled start time, its buffer duration in seconds, and
whether stop() has already been called on it. -/
structure AudioSource where
  startTime : ℚ
  duration : ℚ
  stopped : Bool

/-- State owned by the playback scheduler inside the useVoiceLive hook:
whether audioContextRef holds a context, the nextPlayTimeRef cursor, the
responseStartTimeRef and isFirstChunkRef turn-start tracking, the
audioQueueRef list, and (for observation) the chronological log of
source.start times. -/
structure PlaybackState where
  audioContextExists : Bool
  nextPlayTime : ℚ
  responseStartTime : Option ℚ
  isFirstChunk : Bool
  audioQueue : List AudioSource
  startLog : List ℚ

/-- Lazy AudioContext creation at the top of playAudioChunk (also resets
the cursor). -/
def ensureContext (st : PlaybackState) : PlaybackState :=
  if st.audioContextExists then st
  else { st with audioContextExists := true, nextPlayTime := 0 }

/-- Scheduling part of playAudioChunk, after a successful decode: the
buffer starts at the later of the clock and the cursor, the first chunk of
a turn records that start time as the turn reference, the source is
started and queued, and the cursor moves to start plus duration. -/
def playAudioChunkBytes (clock : ℚ) (bytes : List ℕ) (st : PlaybackState) :
    PlaybackState :=
  let audioBufferDuration : ℚ := ((bytesToInt16 bytes).length : ℚ) / 24000
  let scheduleTime := max clock st.nextPlayTime
  let st2 := if st.isFirstChunk then
      { st with responseStartTime := some scheduleTime, isFirstChunk := false }
    else st
  { st2 with
    audioQueue := st2.audioQueue ++ [⟨scheduleTime, audioBufferDuration, false⟩],
    startLog := st2.startLog ++ [scheduleTime],
    nextPlayTime := scheduleTime + audioBufferDuration }

/-- playAudioChunk from the useVoiceLive hook: ensure the context, decode
base64 to bytes, view them as 16-bit samples and schedule the buffer. A
decode failure (atob throwing) or an odd byte count (the Int16Array
constructor's RangeError) is caught by the surrounding try/catch and only
logged, leaving the state as it was after context creation. -/
def playAudioChunk (clock : ℚ) (base64Audio : String) (st : PlaybackState) :
    PlaybackState :=
  let st1 := ensureContext st
  match atob base64Audio with
  | none => st1
  | some bytes =>
    if bytes.length % 2 = 0 then playAudioChunkBytes clock bytes st1
    else st1

/-- Enqueue a sequence of chunks in arrival order with the clock frozen. -/
def playChunks (clock : ℚ) (ss : List String) (st : PlaybackState) :
    PlaybackState :=
  ss.foldl (fun acc s => playAudioChunk clock s acc) st

/-- The underlying primitive `source.stop()`: throws InvalidStateError when
the source was already stopped. -/
def stopSource (s : AudioSource) : Except String AudioSource :=
  if s.stopped then Except.error "InvalidStateError"
  else Except.ok { s with stopped := true }

/-- The try/catch around `source.stop()` in stopAudioPlayback: the
already-stopped error is swallowed. -/
def stopSourceCaught (s : AudioSource) : Except String AudioSource :=
  match stopSource s with
  | Except.ok s' => Except.ok s'
  | Except.error _ => Except.ok s

/-- The forEach loop of stopAudioPlayback over the queued sources; an
uncaught error would propagate as an exception (an `error` result). -/
def stopAllSources : List AudioSource → Except String Unit
  | [] => Except.ok ()
  | s :: rest =>
    match stopSourceCaught s with
    | Except.ok _ => stopAllSources rest
    | Except.error e => Except.error e

/-- Resulting state of stopAudioPlayback from the useVoiceLive hook: the
pending-buffer list is cleared and the scheduling cursor reset to zero
(the stopped sources are dropped with the queue). -/
def stopAudioPlayback (st : PlaybackState) : PlaybackState :=
  { st with audioQueue := [], nextPlayTime := 0 }

/-- stopAudioPlayback with its exception behaviour made explicit: it stops
every queued source (swallowing already-stopped errors), then clears the
queue and resets the cursor; an `error` result would model an escaping
exception. -/
def stopAudioPlaybackE (st : PlaybackState) : Except String PlaybackState :=
  match stopAllSources st.audioQueue with
  | Except.ok _ => Except.ok (stopAudioPlayback st)
  | Except.error e => Except.error e

/-- getAudioPlaybackTime from the useVoiceLive hook: null without a context
or turn-start reference, otherwise elapsed seconds since the turn's first
scheduled buffer, clamped at zero and converted to milliseconds. -/
def getAudioPlaybackTime (clock : ℚ) (st : PlaybackState) : Option ℚ :=
  if st.audioContextExists = false then none
  else
    match st.responseStartTime with
    | none => none
    | some r => some (max 0 ((clock - r) * 1000))

/-- Start times the claim predicts for enqueued buffers: the first starts
at the given time, each next one where the previous ended. -/
def expectedStarts (t0 : ℚ) : List ℚ → List ℚ
  | [] => []
  | d :: ds => t0 :: expectedStarts (t0 + d) ds

/-- Duration in seconds of the buffer a chunk decodes to. -/
def chunkDuration (s : String) : ℚ :=
  match atob s with
  | some bytes => ((bytesToInt16 bytes).length : ℚ) / 24000
  | none => 0

/-- A chunk whose decode path succeeds: valid base64 of an even number of
bytes (whole 16-bit samples). -/
def decodableChunk (s : String) : Prop :=
  ∃ bytes, atob s = some bytes ∧ bytes.length % 2 = 0

/-- Outbound control-channel event as seen by sendEvent: an
input_audio_buffer.append frame, or any other event type. -/
inductive OutEvent where
  | appendAudio : String → OutEvent
  | otherEvent : String → OutEvent

/-- Discriminates the `event.type === 'input_audio_buffer.append'` check of
sendEvent. -/
def isAppend : OutEvent → Bool
  | OutEvent.appendAudio _ => true
  | OutEvent.otherEvent _ => false

/-- Orchestrator state of the useVoiceLive hook relevant to event dispatch:
the ready flag, whether the WebSocket is open, whether an avatar video
stream is attached, the tracked turn id (currentResponseIdRef, none
modelling null), the pre-ready event queue (eventQueueRef), the list of
frames written to the socket in order, and the chronological list of
deltas forwarded to playAudioChunk (the scheduler itself is modelled
separately as PlaybackState). -/
structure OState where
  isReady : Bool
  wsOpen : Bool
  videoStreamActive : Bool
  currentResponseId : Option String
  eventQueue : List OutEvent
  sentEvents : List OutEvent
  playbackCalls : List String

/-- sendEvent from the useVoiceLive hook: an append frame before readiness
is queued; otherwise the event is written to the socket when it is open
and dropped with a console warning when it is not. -/
def sendEvent (ev : OutEvent) (st : OState) : OState :=
  if isAppend ev && !st.isReady then
    { st with eventQueue := st.eventQueue ++ [ev] }
  else if st.wsOpen then { st with sentEvents := st.sentEvents ++ [ev] }
  else st

/-- JavaScript truthiness of the `data.delta` guard (absent, null and the
empty string are falsy; absent and null are modelled together as none,
which is faithful here because only truthiness of the delta is ever
used). -/
def deltaTruthy : Option String → Bool
  | none => false
  | some s => s ≠ ""

/-- Inbound control-channel events whose handling the claims are about
(session.updated distinguished by whether the accepted configuration
carries avatar ICE servers; response ids are strings or null). -/
inductive InEvent where
  | sessionUpdated : Bool → InEvent
  | responseCreated : Option String → InEvent
  | speechStarted : InEvent
  | audioDelta : Option String → Option String → InEvent
  | audioDone : Option String → InEvent
  | otherInbound : String → InEvent

/-- handleMessage dispatch from the useVoiceLive hook, restricted to the
orchestrator state above. session.updated without avatar ICE servers marks
the session ready and flushes the queued events to the socket in order
(each actually written only while the socket is open), then empties the
queue; with ICE servers it starts WebRTC negotiation (which touches none
of these fields). response.created with a truthy id retracks the turn id
(it also resets the playback turn-start tracking, modelled in
PlaybackState). response.audio.delta forwards the chunk to playAudioChunk
only when the delta is truthy, no avatar video stream is attached, and the
chunk's response_id strictly equals the tracked turn id.
input_audio_buffer.speech_started calls stopAudioPlayback (modelled on
PlaybackState); response.audio.done resets the playback cursor; unknown
events are ignored. -/
def handleMessage (ev : InEvent) (st : OState) : OState :=
  match ev with
  | InEvent.sessionUpdated hasAvatarIceServers =>
    if hasAvatarIceServers then st
    else
      { st with
        isReady := true,
        sentEvents := st.sentEvents ++ (if st.wsOpen then st.eventQueue else []),
        eventQueue := [] }
  | InEvent.responseCreated rid =>
    match rid with
    | some s => if s ≠ "" then { st with currentResponseId := some s } else st
    | none => st
  | InEvent.audioDelta delta rid =>
    if deltaTruthy delta && !st.videoStreamActive &&
        (rid == st.currentResponseId) then
      { st with playbackCalls := st.playbackCalls ++ [delta.getD ""] }
    else st
  | InEvent.speechStarted => st
  | InEvent.audioDone _ => st
  | InEvent.otherInbound _ => st

/-- Truthiness of an optional string credential or URL field. -/
def strTruthy : Option String → Bool
  | none => false
  | some s => s ≠ ""

/-- Connection fields of the hook configuration used by connect. -/
structure ConnectionConfig where
  proxyUrl : Option String
  resourceName : String
  apiVersion : Option String
  modelName : Option String
  agentId : Option String
  projectName : Option String
  projectId : Option String
  agentAccessToken : Option String
  apiKey : Option String

/-- The `connection.projectName || connection.projectId` fallback in
connect. -/
def projectIdentifier (c : ConnectionConfig) : Option String :=
  if strTruthy c.projectName then c.projectName else c.projectId

/-- Agent-mode detection in connect:
`!!(connection.agentId && projectIdentifier)`. -/
def isAgentMode (c : ConnectionConfig) : Bool :=
  strTruthy c.agentId && strTruthy (projectIdentifier c)

/-- JavaScript `x || defaultValue` on an optional string. -/
def orDefault (v : Option String) (d : String) : String :=
  if strTruthy v then v.getD d else d

/-- Modelled as the identity: the platform encodeURIComponent primitive;
no claim depends on its escaping. -/
def encodeURIComponent (s : String) : String := s

/-- The synchronous URL-resolution part of connect from the useVoiceLive
hook, up to (but not including) the WebSocket construction: a truthy proxy
URL is used as-is; agent mode builds the agent URL and throws the
missing-token error before any WebSocket exists when no agent access token
is present; standard mode builds the model URL with optional api-key. -/
def connectInner (c : ConnectionConfig) : Except String String :=
  if strTruthy c.proxyUrl then Except.ok (c.proxyUrl.getD "")
  else if isAgentMode c then
    let base := "wss://" ++ c.resourceName ++
      ".services.ai.azure.com/voice-live/realtime?api-version=" ++
      orDefault c.apiVersion "2025-10-01" ++
      "&agent-id=" ++ c.agentId.getD "" ++
      "&agent-project-name=" ++ (projectIdentifier c).getD ""
    if strTruthy c.agentAccessToken then
      Except.ok (base ++ "&agent-access-token=" ++
        encodeURIComponent (c.agentAccessToken.getD ""))
    else Except.error "agentAccessToken is required for Agent Service mode."
  else
    let base := "wss://" ++ c.resourceName ++
      ".services.ai.azure.com/voice-live/realtime?api-version=" ++
      orDefault c.apiVersion "2025-10-01" ++
      "&model=" ++ orDefault c.modelName "gpt-realtime"
    Except.ok (if strTruthy c.apiKey then
      base ++ "&api-key=" ++ encodeURIComponent (c.apiKey.getD "")
    else base)

/-- Observable outcome of one connect() call's synchronous part: whether a
WebSocket was constructed (and with which URL), the connection state and
error state after the call, and the settled rejection of the returned
promise, if any. -/
structure ConnectOutcome where
  wsConstructed : Bool
  wsUrl : Option String
  connectionState : String
  errorState : Option String
  promiseRejection : Option String

/-- connect from the useVoiceLive hook, synchronous part: on a resolved
URL the WebSocket is constructed and the state stays 'connecting' (set at
entry; later transitions are driven by socket callbacks); a synchronous
throw is caught by connect's own catch block, which records the message in
the error state and sets the state to 'error' without rethrowing — the
returned promise therefore fulfills, so the rejection slot is always
empty. -/
def connect (c : ConnectionConfig) : ConnectOutcome :=
  match connectInner c with
  | Except.ok url => ConnectOutcome.mk true (some url) "connecting" none none
  | Except.error msg => ConnectOutcome.mk false none "error" (some msg) none

/-- An acquired microphone stream: whether its tracks have been stopped. -/
structure StreamRes where
  tracksStopped : Bool

/-- A created capture AudioContext: whether it has been closed. -/
structure CtxRes where
  closed : Bool

/-- Resource state of the useAudioCapture hook (the refs plus the capture
flag and error state). -/
structure CaptureState where
  streamRef : Option StreamRes
  audioContextRef : Option CtxRes
  sourceRef : Bool
  workletNodeRef : Bool
  isCapturing : Bool
  errorState : Option String

/-- State of the capture hook before startCapture was ever called. -/
def initialCaptureState : CaptureState :=
  CaptureState.mk none none false false false none

/-- Environment of one startCapture run: the results of the three fallible
platform steps, in the order the source awaits them (getUserMedia, the
AudioContext constructor, audioWorklet.addModule). -/
structure CaptureEnv where
  micResult : Except String Unit
  contextResult : Except String Unit
  workletResult : Except String Unit

/-- startCapture from the useAudioCapture hook: clears the error state,
acquires the stream into streamRef, creates the context into
audioContextRef, loads the worklet, wires the nodes and sets the capturing
flag. The catch block records the failure message in the error state and
rethrows — it does not stop tracks, close the context, or clear any ref
that was already assigned. -/
def startCapture (env : CaptureEnv) (st : CaptureState) :
    CaptureState × Except String Unit :=
  let st0 := { st with errorState := none }
  match env.micResult with
  | Except.error msg => ({ st0 with errorState := some msg }, Except.error msg)
  | Except.ok _ =>
    let st1 := { st0 with streamRef := some ⟨false⟩ }
    match env.contextResult with
    | Except.error msg =>
      ({ st1 with errorState := some msg }, Except.error msg)
    | Except.ok _ =>
      let st2 := { st1 with audioContextRef := some ⟨false⟩ }
      match env.workletResult with
      | Except.error msg =>
        ({ st2 with errorState := some msg }, Except.error msg)
      | Except.ok _ =>
        ({ st2 with
            sourceRef := true
            workletNodeRef := true
            isCapturing := true }, Except.ok ())

theorem jlookup_eq_none (l : List (String × JVal)) (k : String)
    (h : k ∉ l.map Prod.fst) : jlookup l k = none := by
  induction l with
  | nil => rfl
  | cons p rest ih =>
    obtain ⟨k', v⟩ := p
    simp only [List.map_cons, List.mem_cons] at h
    push_neg at h
    simp [jlookup, Ne.symm h.1, ih h.2]

theorem jlookup_setField_self (l : List (String × JVal)) (k : String)
    (v : JVal) : jlookup (setField l k v) k = some v := by
  induction l with
  | nil => simp [setField, jlookup]
  | cons p rest ih =>
    obtain ⟨k', w⟩ := p
    by_cases hk : k' = k
    · simp [setField, hk, jlookup]
    · simp [setField, hk, jlookup, ih]

theorem jlookup_setField_ne (l : List (String × JVal)) (k k' : String)
    (v : JVal) (hk : k' ≠ k) : jlookup (setField l k' v) k = jlookup l k := by
  induction l with
  | nil => simp [setField, jlookup, hk]
  | cons p rest ih =>
    obtain ⟨k₀, w⟩ := p
    by_cases h0 : k₀ = k'
    · subst h0
      simp [setField, jlookup, hk]
    · simp [setField, h0, jlookup, ih]

/-- Equality of `specMergeField` (the spec's per-field rule) with the value
`deepMerge` assigns for a present source field. -/
theorem specMergeField_some (tv : Option JVal) (sv : JVal) :
    specMergeField tv (some sv) = some (newFieldVal tv sv) := by
  cases sv with
  | vnull => simp [specMergeField, newFieldVal]
  | vobj sfields =>
    cases tv with
    | none => simp [specMergeField, newFieldVal]
    | some t => cases t <;> simp [specMergeField, newFieldVal]
  | vbool b =>
    cases tv with
    | none => simp [specMergeField, newFieldVal]
    | some t => cases t <;> simp [specMergeField, newFieldVal]
  | vnum q =>
    cases tv with
    | none => simp [specMergeField, newFieldVal]
    | some t => cases t <;> simp [specMergeField, newFieldVal]
  | vstr s =>
    cases tv with
    | none => simp [specMergeField, newFieldVal]
    | some t => cases t <;> simp [specMergeField, newFieldVal]
  | varr a =>
    cases tv with
    | none => simp [specMergeField, newFieldVal]
    | some t => cases t <;> simp [specMergeField, newFieldVal]

/-- Field-by-field characterisation of `deepMerge`: looking up any key in the
merged object follows the spec's merge rule applied to the two sides'
values at that key. -/
theorem jlookup_deepMerge (u : List (String × JVal)) :
    ∀ (d : List (String × JVal)) (k : String), nodupKeys u →
      jlookup (deepMerge d u) k = specMergeField (jlookup d k) (jlookup u k) := by
  induction u with
  | nil =>
    intro d k _
    simp [deepMerge, jlookup, specMergeField]
  | cons p rest ih =>
    intro d k hu
    obtain ⟨k', sv⟩ := p
    unfold nodupKeys at hu
    simp only [List.map_cons] at hu
    have hcons := List.nodup_cons.mp hu
    have hu' : nodupKeys rest := hcons.2
    have hnotin : k' ∉ rest.map Prod.fst := hcons.1
    rw [deepMerge, ih _ k hu']
    by_cases hk : k' = k
    · subst hk
      rw [jlookup_eq_none rest k' hnotin, jlookup_setField_self]
      show specMergeField (some _) none = _
      simp only [specMergeField, jlookup, if_pos rfl]
      exact (specMergeField_some (jlookup d k') sv).symm
    · rw [jlookup_setField_ne d k k' _ hk]
      simp [jlookup, hk]

theorem jlookup_condEntry (n k : String) (v : Option JVal) :
    jlookup (condEntry n v) k =
      if n = k then (match v with | some x => some x | none => none)
      else none := by
  cases v with
  | none => simp [condEntry, jlookup]
  | some x =>
    by_cases h : n = k <;> simp [condEntry, jlookup, h]

theorem jlookup_condEntry_append (n k : String) (v : Option JVal)
    (rest : List (String × JVal)) :
    jlookup (condEntry n v ++ rest) k =
      if n = k then (match v with | some x => some x | none => jlookup rest k)
      else jlookup rest k := by
  cases v with
  | none => simp [condEntry]
  | some x =>
    by_cases h : n = k <;> simp [condEntry, jlookup, h]

theorem jlookup_convert_td (c : List (String × JVal)) :
    jlookup (convertToSessionUpdate c) "turn_detection" =
      nullableShape (jlookup c "turnDetection") convertTurnDetection := by
  unfold convertToSessionUpdate
  cases h : nullableShape (jlookup c "turnDetection") convertTurnDetection with
  | none => simp [jlookup_condEntry_append, jlookup_condEntry, h]
  | some x => simp [jlookup_condEntry_append, jlookup_condEntry, h]

theorem jlookup_convert_echo (c : List (String × JVal)) :
    jlookup (convertToSessionUpdate c) "input_audio_echo_cancellation" =
      nullableShape (jlookup c "inputAudioEchoCancellation") (fun v =>
        JVal.vobj (condEntry "type" (objGet v "type"))) := by
  unfold convertToSessionUpdate
  cases h : nullableShape (jlookup c "inputAudioEchoCancellation") (fun v =>
      JVal.vobj (condEntry "type" (objGet v "type"))) with
  | none => simp [jlookup_condEntry_append, jlookup_condEntry, h]
  | some x => simp [jlookup_condEntry_append, jlookup_condEntry, h]

theorem jlookup_convert_noise (c : List (String × JVal)) :
    jlookup (convertToSessionUpdate c) "input_audio_noise_reduction" =
      nullableShape (jlookup c "inputAudioNoiseReduction") (fun v =>
        JVal.vobj (condEntry "type" (objGet v "type"))) := by
  unfold convertToSessionUpdate
  cases h : nullableShape (jlookup c "inputAudioNoiseReduction") (fun v =>
      JVal.vobj (condEntry "type" (objGet v "type"))) with
  | none => simp [jlookup_condEntry_append, jlookup_condEntry, h]
  | some x => simp [jlookup_condEntry_append, jlookup_condEntry, h]

theorem jlookup_convert_transcription (c : List (String × JVal)) :
    jlookup (convertToSessionUpdate c) "input_audio_transcription" =
      nullableShape (jlookup c "inputAudioTranscription") (fun v =>
        JVal.vobj (condEntry "model" (objGet v "model") ++
          condEntry "language" (objGet v "language") ++
          condEntry "prompt" (objGet v "prompt"))) := by
  unfold convertToSessionUpdate
  cases h : nullableShape (jlookup c "inputAudioTranscription") (fun v =>
      JVal.vobj (condEntry "model" (objGet v "model") ++
        condEntry "language" (objGet v "language") ++
        condEntry "prompt" (objGet v "prompt"))) with
  | none => simp [jlookup_condEntry_append, jlookup_condEntry, h]
  | some x => simp [jlookup_condEntry_append, jlookup_condEntry, h]

theorem jlookup_convert_tools (c : List (String × JVal)) :
    jlookup (convertToSessionUpdate c) "tools" =
      truthyOpt (jlookup c "tools") := by
  unfold convertToSessionUpdate
  cases h : truthyOpt (jlookup c "tools") with
  | none => simp [jlookup_condEntry_append, jlookup_condEntry, h]
  | some x => simp [jlookup_condEntry_append, jlookup_condEntry, h]

/-- C1 (amended): for every defaults object and user configuration (with
the distinct keys every JavaScript object has), the merge underlying the
built wire descriptor follows the merge rule field by field — a null user
field stays explicitly null, an undefined one inherits the default's
value, plain nested objects on both sides merge recursively, arrays and
any other value are taken from the user (`specMergeField`). At the wire
level the explicit null survives only for the fields projected through the
null-preserving pattern: a null turn detection reaches the wire as an
explicit null, an undefined one inherits the projected default, and the
echo-cancellation, noise-reduction and transcription wire fields equal the
merge rule's result shaped for the wire; a truthiness-guarded field such
as tools filters the merge rule's result through the truthiness guard, so
a user null there is dropped from the wire output entirely (see the
counterexample). -/
theorem claim_C1 (d u : List (String × JVal)) (k : String)
    (hu : nodupKeys u) :
    jlookup (deepMerge d u) k = specMergeField (jlookup d k) (jlookup u k) ∧
    (jlookup u "turnDetection" = some JVal.vnull →
      jlookup (buildSessionConfig (some u)) "turn_detection" =
        some JVal.vnull) ∧
    (jlookup u "turnDetection" = none →
      jlookup (buildSessionConfig (some u)) "turn_detection" =
        nullableShape (jlookup DEFAULT_SESSION_CONFIG "turnDetection")
          convertTurnDetection) ∧
    jlookup (buildSessionConfig (some u)) "input_audio_echo_cancellation" =
      nullableShape
        (specMergeField
          (jlookup DEFAULT_SESSION_CONFIG "inputAudioEchoCancellation")
          (jlookup u "inputAudioEchoCancellation"))
        (fun v => JVal.vobj (condEntry "type" (objGet v "type"))) ∧
    jlookup (buildSessionConfig (some u)) "input_audio_noise_reduction" =
      nullableShape
        (specMergeField
          (jlookup DEFAULT_SESSION_CONFIG "inputAudioNoiseReduction")
          (jlookup u "inputAudioNoiseReduction"))
        (fun v => JVal.vobj (condEntry "type" (objGet v "type"))) ∧
    jlookup (buildSessionConfig (some u)) "input_audio_transcription" =
      nullableShape
        (specMergeField
          (jlookup DEFAULT_SESSION_CONFIG "inputAudioTranscription")
          (jlookup u "inputAudioTranscription"))
        (fun v => JVal.vobj (condEntry "model" (objGet v "model") ++
          condEntry "language" (objGet v "language") ++
          condEntry "prompt" (objGet v "prompt"))) ∧
    jlookup (buildSessionConfig (some u)) "tools" =
      truthyOpt
        (specMergeField (jlookup DEFAULT_SESSION_CONFIG "tools")
          (jlookup u "tools")) ∧
    (jlookup u "tools" = some JVal.vnull →
      jlookup (buildSessionConfig (some u)) "tools" = none) := by
  refine ⟨jlookup_deepMerge u d k hu, ?_, ?_, ?_, ?_, ?_, ?_, ?_⟩
  · intro h
    simp only [buildSessionConfig]
    rw [jlookup_convert_td, jlookup_deepMerge u _ _ hu, h]
    simp [specMergeField, nullableShape]
  · intro h
    simp only [buildSessionConfig]
    rw [jlookup_convert_td, jlookup_deepMerge u _ _ hu, h]
    simp [specMergeField]
  · simp only [buildSessionConfig]
    rw [jlookup_convert_echo, jlookup_deepMerge u _ _ hu]
  · simp only [buildSessionConfig]
    rw [jlookup_convert_noise, jlookup_deepMerge u _ _ hu]
  · simp only [buildSessionConfig]
    rw [jlookup_convert_transcription, jlookup_deepMerge u _ _ hu]
  · simp only [buildSessionConfig]
    rw [jlookup_convert_tools, jlookup_deepMerge u _ _ hu]
  · intro h
    simp only [buildSessionConfig]
    rw [jlookup_convert_tools, jlookup_deepMerge u _ _ hu, h]
    simp [specMergeField, truthyOpt, truthy]

/-- The claim as frozen is false of the program: the user sets tools to
null, the default carries a tools value, yet the built wire descriptor has
no tools field at all — the null is dropped by the truthiness guard
`if (config.tools)` in convertToSessionUpdate, appearing neither as an
explicit null nor as the default. -/
theorem claim_C1_counterexample :
    jlookup [("tools", JVal.vnull)] "tools" = some JVal.vnull ∧
    jlookup DEFAULT_SESSION_CONFIG "tools" = some (JVal.varr []) ∧
    jlookup (buildSessionConfig (some [("tools", JVal.vnull)])) "tools" =
      none := by
  refine ⟨rfl, rfl, ?_⟩
  simp only [buildSessionConfig]
  rw [jlookup_convert_tools, jlookup_deepMerge _ _ _ (by decide)]
  rfl

theorem claim_C1_witness :
    jlookup (deepMerge [("x", JVal.varr [])]
        [("turnDetection", JVal.vnull), ("tools", JVal.vnull)]) "x" =
      specMergeField (jlookup [("x", JVal.varr [])] "x")
        (jlookup [("turnDetection", JVal.vnull), ("tools", JVal.vnull)]
          "x") ∧
    jlookup (buildSessionConfig
        (some [("turnDetection", JVal.vnull), ("tools", JVal.vnull)]))
      "turn_detection" = some JVal.vnull ∧
    jlookup (buildSessionConfig
        (some [("turnDetection", JVal.vnull), ("tools", JVal.vnull)]))
      "tools" = none :=
  ⟨(claim_C1 [("x", JVal.varr [])]
      [("turnDetection", JVal.vnull), ("tools", JVal.vnull)] "x"
      (by decide)).1,
   (claim_C1 [("x", JVal.varr [])]
      [("turnDetection", JVal.vnull), ("tools", JVal.vnull)] "x"
      (by decide)).2.1 rfl,
   (claim_C1 [("x", JVal.varr [])]
      [("turnDetection", JVal.vnull), ("tools", JVal.vnull)] "x"
      (by decide)).2.2.2.2.2.2.2 rfl⟩

/-- C2: the projection of a voice configuration whose rate is supplied as a
number does NOT coerce it to its string form — `convertVoiceConfig` copies
a truthy rate through unchanged, so a numeric rate 0.9 reaches the wire as
the number 0.9 and not as the string "0.9". This evaluates the code at the
failing input of the claim. -/
theorem claim_C2 :
    objGet (convertVoiceConfig (JVal.vobj
      [("name", JVal.vstr "en-US-Ava:DragonHDLatestNeural"),
       ("rate", JVal.vnum 0.9)])) "rate" = some (JVal.vnum 0.9) ∧
    JVal.vnum 0.9 ≠ JVal.vstr "0.9" := by
  constructor
  · simp only [convertVoiceConfig, objGet, condEntry, truthyOpt, truthy]
    norm_num
    simp [jlookup]
  · intro h
    exact JVal.noConfusion h

theorem stopSourceCaught_ok (s : AudioSource) :
    stopSourceCaught s =
      Except.ok (if s.stopped then s else { s with stopped := true }) := by
  unfold stopSourceCaught stopSource
  by_cases h : s.stopped <;> simp [h]

theorem stopAllSources_ok (l : List AudioSource) :
    stopAllSources l = Except.ok () := by
  induction l with
  | nil => rfl
  | cons s rest ih => simp [stopAllSources, stopSourceCaught_ok, ih]

/-- C6: the playback stop-all operation never throws — the forEach over the
queued sources always completes (the primitive's already-stopped error is
swallowed per source), including on an empty queue and when called twice
in a row — and after any call the pending-buffer list is empty and the
scheduling cursor is zero; a second call changes nothing. -/
theorem claim_C6 (st : PlaybackState) :
    stopAudioPlaybackE st = Except.ok (stopAudioPlayback st) ∧
    (stopAudioPlayback st).audioQueue = [] ∧
    (stopAudioPlayback st).nextPlayTime = 0 ∧
    stopAudioPlaybackE (stopAudioPlayback st) =
      Except.ok (stopAudioPlayback (stopAudioPlayback st)) ∧
    stopAudioPlayback (stopAudioPlayback st) = stopAudioPlayback st := by
  refine ⟨?_, rfl, rfl, ?_, rfl⟩
  · unfold stopAudioPlaybackE
    rw [stopAllSources_ok]
  · unfold stopAudioPlaybackE
    rw [stopAllSources_ok]

/-- C10: a response.audio.delta event whose delta is absent or null
(modelled together as none) or the empty string never reaches the playback
scheduler — the handler leaves the state untouched — even when the
response id matches the tracked turn and no avatar video is active, so the
scheduler's zero-length decode path is unreachable from the inbound event
interface. -/
theorem claim_C10 (st : OState) (rid : Option String) (delta : Option String)
    (h : delta = none ∨ delta = some "") :
    handleMessage (InEvent.audioDelta delta rid) st = st := by
  rcases h with h | h <;> subst h <;> simp [handleMessage, deltaTruthy]

theorem claim_C10_witness :
    ((some "" = (none : Option String)) ∨ ((some "" : Option String) = some "")) ∧
    handleMessage (InEvent.audioDelta (some "") (some "r1"))
        (OState.mk true true false (some "r1") [] [] []) =
      OState.mk true true false (some "r1") [] [] [] :=
  ⟨Or.inr rfl,
   claim_C10 (OState.mk true true false (some "r1") [] [] [])
     (some "r1") (some "") (Or.inr rfl)⟩

/-- C5: an input_audio_buffer.append frame sent while the session is not
ready is appended to the ordered queue (nothing is written to the socket);
the ready signal (session.updated without avatar ICE servers, socket open)
flushes the whole queue to the socket in original order and empties it; a
repeated ready signal re-sends nothing; and once ready, append frames
bypass the queue and go straight to the socket. -/
theorem claim_C5 (st : OState) (a : String) :
    (st.isReady = false →
      sendEvent (OutEvent.appendAudio a) st =
        { st with eventQueue := st.eventQueue ++ [OutEvent.appendAudio a] }) ∧
    (st.wsOpen = true →
      handleMessage (InEvent.sessionUpdated false) st =
        { st with
            isReady := true
            sentEvents := st.sentEvents ++ st.eventQueue
            eventQueue := [] }) ∧
    (st.wsOpen = true →
      (handleMessage (InEvent.sessionUpdated false)
          (handleMessage (InEvent.sessionUpdated false) st)).sentEvents =
        st.sentEvents ++ st.eventQueue) ∧
    (st.isReady = true → st.wsOpen = true →
      sendEvent (OutEvent.appendAudio a) st =
        { st with sentEvents := st.sentEvents ++ [OutEvent.appendAudio a] }) := by
  refine ⟨?_, ?_, ?_, ?_⟩
  · intro h
    simp [sendEvent, isAppend, h]
  · intro h
    simp [handleMessage, h]
  · intro h
    simp [handleMessage, h]
  · intro h1 h2
    simp [sendEvent, isAppend, h1, h2]

theorem claim_C5_witness :
    sendEvent (OutEvent.appendAudio "x")
        (OState.mk false true false none [OutEvent.appendAudio "q1"] [] []) =
      OState.mk false true false none
        [OutEvent.appendAudio "q1", OutEvent.appendAudio "x"] [] [] ∧
    handleMessage (InEvent.sessionUpdated false)
        (OState.mk false true false none [OutEvent.appendAudio "q1"] [] []) =
      OState.mk true true false none [] [OutEvent.appendAudio "q1"] [] ∧
    (handleMessage (InEvent.sessionUpdated false)
        (handleMessage (InEvent.sessionUpdated false)
          (OState.mk false true false none
            [OutEvent.appendAudio "q1"] [] []))).sentEvents =
      [OutEvent.appendAudio "q1"] ∧
    sendEvent (OutEvent.appendAudio "x")
        (OState.mk true true false none [] [] []) =
      OState.mk true true false none [] [OutEvent.appendAudio "x"] [] :=
  ⟨(claim_C5 (OState.mk false true false none
      [OutEvent.appendAudio "q1"] [] []) "x").1 rfl,
   (claim_C5 (OState.mk false true false none
      [OutEvent.appendAudio "q1"] [] []) "x").2.1 rfl,
   (claim_C5 (OState.mk false true false none
      [OutEvent.appendAudio "q1"] [] []) "x").2.2.1 rfl,
   (claim_C5 (OState.mk true true false none [] [] []) "x").2.2.2 rfl rfl⟩

/-- C4 (amended): a response.audio.delta chunk is forwarded to the playback
scheduler exactly when its delta is a non-empty string, no avatar video
stream is active, and its response id equals the tracked turn id (the
claim's original two conditions alone are not sufficient: an empty or
absent delta is dropped, see the counterexample); and the id check is per
chunk — after a response.created retracks the turn id, a chunk carrying
the previous id is silently dropped. -/
theorem claim_C4 (st : OState) (delta : Option String) (rid : Option String) :
    (handleMessage (InEvent.audioDelta delta rid) st).playbackCalls =
      st.playbackCalls ++
        (if deltaTruthy delta = true ∧ st.videoStreamActive = false ∧
            rid = st.currentResponseId
         then [delta.getD ""] else []) ∧
    (∀ (d : Option String) (oldId newId : String), newId ≠ "" →
      oldId ≠ newId →
      (handleMessage (InEvent.audioDelta d (some oldId))
          (handleMessage (InEvent.responseCreated (some newId)) st)).playbackCalls =
        (handleMessage (InEvent.responseCreated (some newId)) st).playbackCalls) := by
  constructor
  · by_cases hd : deltaTruthy delta <;>
      by_cases hv : st.videoStreamActive <;>
      by_cases hr : rid = st.currentResponseId <;>
      simp [handleMessage, hd, hv, hr]
  · intro d oldId newId hnew hne
    simp [handleMessage, hnew, hne]

/-- The claim's biconditional fails as stated: this event's turn id matches
the tracked turn and no avatar video is active, yet the chunk (an empty
delta) is not forwarded to the scheduler. -/
theorem claim_C4_counterexample :
    (handleMessage (InEvent.audioDelta (some "") (some "r1"))
        (OState.mk true true false (some "r1") [] [] [])).playbackCalls = [] ∧
    (OState.mk true true false (some "r1") [] [] []).videoStreamActive = false ∧
    (OState.mk true true false (some "r1") [] [] []).currentResponseId =
      some "r1" := by
  refine ⟨?_, rfl, rfl⟩
  simp [handleMessage, deltaTruthy]

theorem claim_C4_witness :
    (handleMessage (InEvent.audioDelta (some "hello") (some "r2"))
        (OState.mk true true false (some "r2") [] [] [])).playbackCalls =
      [] ++
        (if deltaTruthy (some "hello") = true ∧
            (OState.mk true true false (some "r2") [] [] []).videoStreamActive
              = false ∧
            (some "r2" : Option String) =
              (OState.mk true true false (some "r2") [] [] []).currentResponseId
         then [(some "hello").getD ""] else []) ∧
    (handleMessage (InEvent.audioDelta (some "late") (some "old"))
        (handleMessage (InEvent.responseCreated (some "new"))
          (OState.mk true true false (some "r2") [] [] []))).playbackCalls =
      (handleMessage (InEvent.responseCreated (some "new"))
        (OState.mk true true false (some "r2") [] [] [])).playbackCalls :=
  ⟨(claim_C4 (OState.mk true true false (some "r2") [] [] [])
      (some "hello") (some "r2")).1,
   (claim_C4 (OState.mk true true false (some "r2") [] [] [])
      (some "hello") (some "r2")).2 (some "late") "old" "new"
      (by decide) (by decide)⟩

/-- C8 (amended): with agent mode selected, no proxy URL and no agent
access token, connect fails fast — the missing-token error is thrown
synchronously before any WebSocket is constructed — but connect's own
catch block swallows the throw: the message lands in the error state and
the connection state becomes error, while the returned promise fulfills
(no rejection). -/
theorem claim_C8 (c : ConnectionConfig)
    (hproxy : strTruthy c.proxyUrl = false)
    (hagent : isAgentMode c = true)
    (htoken : strTruthy c.agentAccessToken = false) :
    connect c = ConnectOutcome.mk false none "error"
      (some "agentAccessToken is required for Agent Service mode.") none := by
  unfold connect connectInner
  simp [hproxy, hagent, htoken]

/-- The claim's rejection does not happen as stated: at this concrete agent
configuration with no token, no WebSocket is constructed, yet the returned
promise carries no rejection — the missing-token message is surfaced
through the error state instead. -/
theorem claim_C8_counterexample :
    (connect (ConnectionConfig.mk none "my-resource" none none
        (some "asst_1") (some "proj-1") none none none)).promiseRejection =
      none ∧
    (connect (ConnectionConfig.mk none "my-resource" none none
        (some "asst_1") (some "proj-1") none none none)).errorState =
      some "agentAccessToken is required for Agent Service mode." ∧
    (connect (ConnectionConfig.mk none "my-resource" none none
        (some "asst_1") (some "proj-1") none none none)).wsConstructed =
      false := by
  refine ⟨?_, ?_, ?_⟩ <;> rfl

theorem claim_C8_witness :
    connect (ConnectionConfig.mk none "res-2" none none
        (some "asst_2") none (some "proj-id-2") none (some "key")) =
      ConnectOutcome.mk false none "error"
        (some "agentAccessToken is required for Agent Service mode.") none :=
  claim_C8 (ConnectionConfig.mk none "res-2" none none
      (some "asst_2") none (some "proj-id-2") none (some "key"))
    rfl rfl rfl

/-- C7 (amended): whenever startCapture fails — at microphone acquisition,
context creation or worklet load — the promise rejects with the failing
step's message and the same message is recorded in the error state, but
the already-acquired resources are NOT released before the rejection
propagates: after a context or worklet failure the acquired stream stays
referenced with its tracks running, and after a worklet failure the
created context additionally stays open (release only happens in
stopCapture / unmount cleanup). -/
theorem claim_C7 (env : CaptureEnv) (st : CaptureState) (msg : String) :
    (env.micResult = Except.error msg →
      startCapture env st =
        ({ st with errorState := some msg }, Except.error msg)) ∧
    (env.micResult = Except.ok () → env.contextResult = Except.error msg →
      startCapture env st =
        ({ st with
            errorState := some msg
            streamRef := some ⟨false⟩ }, Except.error msg)) ∧
    (env.micResult = Except.ok () → env.contextResult = Except.ok () →
      env.workletResult = Except.error msg →
      startCapture env st =
        ({ st with
            errorState := some msg
            streamRef := some ⟨false⟩
            audioContextRef := some ⟨false⟩ }, Except.error msg)) := by
  refine ⟨?_, ?_, ?_⟩
  · intro h1
    simp [startCapture, h1]
  · intro h1 h2
    simp [startCapture, h1, h2]
  · intro h1 h2 h3
    simp [startCapture, h1, h2, h3]

/-- The claim's no-partial-state guarantee fails at this concrete run: the
microphone and context steps succeed, the worklet load fails, the promise
rejects — and the acquired stream is still referenced with its tracks
running and the created context still open, not the state of a never-run
startCapture. -/
theorem claim_C7_counterexample :
    (startCapture (CaptureEnv.mk (Except.ok ()) (Except.ok ())
        (Except.error "failed to load audio-processor.js"))
      initialCaptureState).2 =
      Except.error "failed to load audio-processor.js" ∧
    (startCapture (CaptureEnv.mk (Except.ok ()) (Except.ok ())
        (Except.error "failed to load audio-processor.js"))
      initialCaptureState).1.streamRef = some (StreamRes.mk false) ∧
    (startCapture (CaptureEnv.mk (Except.ok ()) (Except.ok ())
        (Except.error "failed to load audio-processor.js"))
      initialCaptureState).1.audioContextRef = some (CtxRes.mk false) := by
  refine ⟨?_, ?_, ?_⟩ <;> rfl

theorem claim_C7_witness :
    startCapture (CaptureEnv.mk (Except.ok ()) (Except.ok ())
        (Except.error "NotSupportedError"))
      (CaptureState.mk none none false false false none) =
      ({ CaptureState.mk none none false false false none with
          errorState := some "NotSupportedError"
          streamRef := some ⟨false⟩
          audioContextRef := some ⟨false⟩ }, Except.error "NotSupportedError") :=
  (claim_C7 (CaptureEnv.mk (Except.ok ()) (Except.ok ())
      (Except.error "NotSupportedError"))
    (CaptureState.mk none none false false false none)
    "NotSupportedError").2.2 rfl rfl rfl

theorem b64CharValue_b64Char (n : ℕ) (h : n < 64) :
    b64CharValue (b64Char n) = some n := by
  have key : ∀ m : Fin 64, b64CharValue (b64Char m.1) = some m.1 := by decide
  exact key ⟨n, h⟩

theorem b64Char_ne_pad (n : ℕ) (h : n < 64) : b64Char n ≠ '=' := by
  have key : ∀ m : Fin 64, b64Char m.1 ≠ '=' := by decide
  exact key ⟨n, h⟩

theorem atob_encode (bytes : List ℕ) (h : ∀ b ∈ bytes, b < 256) :
    atob (arrayBufferToBase64 bytes) = some bytes := by
  show atobBytes (b64EncodeBytes bytes) = some bytes
  revert h
  induction bytes using b64EncodeBytes.induct with
  | case1 =>
    intro _
    rfl
  | case2 a =>
    intro h
    have ha : a < 256 := h a (by simp)
    have h1 := b64CharValue_b64Char (a / 4) (by omega)
    have h2 := b64CharValue_b64Char (a % 4 * 16) (by omega)
    simp only [b64EncodeBytes, atobBytes, h1, h2]
    simp only [if_pos rfl, and_self, if_true, reduceIte]
    congr 1
    have : a / 4 * 4 + a % 4 * 16 / 16 = a := by omega
    rw [this]
  | case3 a b =>
    intro h
    have ha : a < 256 := h a (by simp)
    have hb : b < 256 := h b (by simp)
    have h1 := b64CharValue_b64Char (a / 4) (by omega)
    have h2 := b64CharValue_b64Char (a % 4 * 16 + b / 16) (by omega)
    have h3 := b64CharValue_b64Char (b % 16 * 4) (by omega)
    have hne := b64Char_ne_pad (b % 16 * 4) (by omega)
    simp only [b64EncodeBytes, atobBytes, h1, h2, h3, if_neg hne,
      if_pos rfl, reduceIte]
    congr 1
    have e1 : a / 4 * 4 + (a % 4 * 16 + b / 16) / 16 = a := by omega
    have e2 : (a % 4 * 16 + b / 16) % 16 * 16 + b % 16 * 4 / 4 = b := by omega
    rw [e1, e2]
  | case4 a b c rest ih =>
    intro h
    have ha : a < 256 := h a (by simp)
    have hb : b < 256 := h b (by simp)
    have hc : c < 256 := h c (by simp)
    have hrest : ∀ x ∈ rest, x < 256 := fun x hx => h x (by simp [hx])
    have h1 := b64CharValue_b64Char (a / 4) (by omega)
    have h2 := b64CharValue_b64Char (a % 4 * 16 + b / 16) (by omega)
    have h3 := b64CharValue_b64Char (b % 16 * 4 + c / 64) (by omega)
    have h4 := b64CharValue_b64Char (c % 64) (by omega)
    have hne3 := b64Char_ne_pad (b % 16 * 4 + c / 64) (by omega)
    have hne4 := b64Char_ne_pad (c % 64) (by omega)
    simp only [b64EncodeBytes, atobBytes, h1, h2, h3, h4, if_neg hne3,
      if_neg hne4, ih hrest, Option.map_some]
    have e1 : a / 4 * 4 + (a % 4 * 16 + b / 16) / 16 = a := by omega
    have e2 : (a % 4 * 16 + b / 16) % 16 * 16 + (b % 16 * 4 + c / 64) / 4 = b := by
      omega
    have e3 : (b % 16 * 4 + c / 64) % 4 * 64 + c % 64 = c := by omega
    rw [e1, e2, e3]
    rfl

/-- C9: encoding any byte sequence as base64 (the capture side's
arrayBufferToBase64, spec-modelled) and running it through the playback
scheduler's decode path recovers exactly the original bytes at the byte
stage, with no error — for every length N, hence in particular for N = 0,
1, 24000 and 100000; and the empty string decodes to a zero-sample buffer
(no bytes, no 16-bit samples). -/
theorem claim_C9 (bytes : List ℕ) (h : ∀ b ∈ bytes, b < 256) :
    atob (arrayBufferToBase64 bytes) = some bytes ∧
    atob "" = some [] ∧
    bytesToInt16 [] = [] :=
  ⟨atob_encode bytes h, rfl, rfl⟩

theorem claim_C9_witness :
    (∀ b ∈ [72, 101, 108], b < 256) ∧
    (atob (arrayBufferToBase64 [72, 101, 108]) = some [72, 101, 108] ∧
      atob "" = some [] ∧
      bytesToInt16 [] = []) :=
  ⟨by decide, claim_C9 [72, 101, 108] (by decide)⟩

theorem chunkDuration_nonneg (s : String) : 0 ≤ chunkDuration s := by
  unfold chunkDuration
  cases atob s with
  | none => simp
  | some bytes => positivity

theorem playChunk_step (clock : ℚ) (s : String) (st : PlaybackState)
    (hctx : st.audioContextExists = true)
    (hfirst : st.isFirstChunk = false)
    (hle : clock ≤ st.nextPlayTime)
    (bytes : List ℕ) (hdecode : atob s = some bytes)
    (heven : bytes.length % 2 = 0) :
    playAudioChunk clock s st =
      { st with
          audioQueue := st.audioQueue ++ [⟨st.nextPlayTime, chunkDuration s, false⟩]
          startLog := st.startLog ++ [st.nextPlayTime]
          nextPlayTime := st.nextPlayTime + chunkDuration s } := by
  unfold playAudioChunk ensureContext playAudioChunkBytes
  rw [hctx]
  simp only [if_true, hdecode, heven, reduceIte, hfirst, Bool.false_eq_true,
    if_false, max_eq_right hle, chunkDuration, hdecode]
  simp [hctx]

theorem playFold_ge (ss : List String) :
    ∀ (clock : ℚ) (st : PlaybackState),
      st.audioContextExists = true → st.isFirstChunk = false →
      clock ≤ st.nextPlayTime →
      (∀ s ∈ ss, decodableChunk s) →
      (playChunks clock ss st).startLog =
        st.startLog ++ expectedStarts st.nextPlayTime (ss.map chunkDuration) ∧
      (playChunks clock ss st).nextPlayTime =
        st.nextPlayTime + (ss.map chunkDuration).sum ∧
      (playChunks clock ss st).responseStartTime = st.responseStartTime ∧
      (playChunks clock ss st).audioContextExists = true ∧
      (playChunks clock ss st).isFirstChunk = false := by
  induction ss with
  | nil =>
    intro clock st hctx hfirst hle _
    simp [playChunks, expectedStarts, hctx, hfirst]
  | cons s rest ih =>
    intro clock st hctx hfirst hle hdec
    obtain ⟨bytes, hdecode, heven⟩ := hdec s (by simp)
    have hstep := playChunk_step clock s st hctx hfirst hle bytes hdecode heven
    have hd : 0 ≤ chunkDuration s := chunkDuration_nonneg s
    have hfold : playChunks clock (s :: rest) st =
        playChunks clock rest (playAudioChunk clock s st) := rfl
    rw [hfold, hstep]
    have hrec := ih clock
      { st with
          audioQueue := st.audioQueue ++ [⟨st.nextPlayTime, chunkDuration s, false⟩]
          startLog := st.startLog ++ [st.nextPlayTime]
          nextPlayTime := st.nextPlayTime + chunkDuration s }
      hctx hfirst (by simpa using le_trans hle (by linarith))
      (fun x hx => hdec x (by simp [hx]))
    simp only at hrec
    obtain ⟨hlog, hnext, hrs, hctx2, hfc2⟩ := hrec
    refine ⟨?_, ?_, hrs, hctx2, hfc2⟩
    · rw [hlog]
      simp [expectedStarts, List.append_assoc]
    · rw [hnext]
      simp [List.sum_cons]
      ring

theorem playChunk_first (clock : ℚ) (s : String) (st : PlaybackState)
    (hctx : st.audioContextExists = true)
    (hfirst : st.isFirstChunk = true)
    (hcur : st.nextPlayTime ≤ clock)
    (bytes : List ℕ) (hdecode : atob s = some bytes)
    (heven : bytes.length % 2 = 0) :
    playAudioChunk clock s st =
      { st with
          responseStartTime := some clock
          isFirstChunk := false
          audioQueue := st.audioQueue ++ [⟨clock, chunkDuration s, false⟩]
          startLog := st.startLog ++ [clock]
          nextPlayTime := clock + chunkDuration s } := by
  unfold playAudioChunk ensureContext playAudioChunkBytes
  rw [hctx]
  simp only [if_true, hdecode, heven, reduceIte, hfirst, if_true,
    max_eq_left hcur, chunkDuration, hdecode]
  simp [hctx]

/-- C3: with the clock frozen at t0 and the cursor at or below t0,
enqueuing k decodable chunks schedules their buffers at start times t0,
t0+d1, t0+d1+d2, ..., where di is the duration of the i-th decoded buffer
(each start is max of clock and cursor, and the cursor then moves to start
plus duration, ending at t0 plus the total duration); and after the first
buffer the playback-time query returns a value that is never negative. -/
theorem claim_C3 (ss : List String) (t0 : ℚ) (st : PlaybackState)
    (hctx : st.audioContextExists = true)
    (hcur : st.nextPlayTime ≤ t0)
    (hfirst : st.isFirstChunk = true)
    (hdec : ∀ s ∈ ss, decodableChunk s) :
    (playChunks t0 ss st).startLog =
      st.startLog ++ expectedStarts t0 (ss.map chunkDuration) ∧
    (ss ≠ [] →
      (playChunks t0 ss st).nextPlayTime = t0 + (ss.map chunkDuration).sum ∧
      (playChunks t0 ss st).responseStartTime = some t0 ∧
      ∀ clockLater : ℚ, ∃ v,
        getAudioPlaybackTime clockLater (playChunks t0 ss st) = some v ∧
          0 ≤ v) := by
  cases ss with
  | nil =>
    refine ⟨by simp [playChunks, expectedStarts], fun hne => absurd rfl hne⟩
  | cons s rest =>
    obtain ⟨bytes, hdecode, heven⟩ := hdec s (by simp)
    have hstep := playChunk_first t0 s st hctx hfirst hcur bytes hdecode heven
    have hd : 0 ≤ chunkDuration s := chunkDuration_nonneg s
    have hfold : playChunks t0 (s :: rest) st =
        playChunks t0 rest (playAudioChunk t0 s st) := rfl
    rw [hfold, hstep]
    have hrec := playFold_ge rest t0
      { st with
          responseStartTime := some t0
          isFirstChunk := false
          audioQueue := st.audioQueue ++ [⟨t0, chunkDuration s, false⟩]
          startLog := st.startLog ++ [t0]
          nextPlayTime := t0 + chunkDuration s }
      hctx rfl (by simp; linarith)
      (fun x hx => hdec x (by simp [hx]))
    simp only at hrec
    obtain ⟨hlog, hnext, hrs, hctx2, _⟩ := hrec
    refine ⟨?_, fun _ => ⟨?_, ?_, ?_⟩⟩
    · rw [hlog]
      simp [expectedStarts, List.append_assoc]
    · rw [hnext]
      simp [List.sum_cons]
      ring
    · rw [hrs]
    · intro clockLater
      refine ⟨max 0 ((clockLater - t0) * 1000), ?_, le_max_left 0 _⟩
      unfold getAudioPlaybackTime
      rw [hctx2, hrs]
      simp

theorem claim_C3_witness :
    (playChunks 1 [arrayBufferToBase64 [0, 0]]
        (PlaybackState.mk true 0 none true [] [])).startLog =
      [] ++ expectedStarts 1 ([arrayBufferToBase64 [0, 0]].map chunkDuration) ∧
    (playChunks 1 [arrayBufferToBase64 [0, 0]]
        (PlaybackState.mk true 0 none true [] [])).nextPlayTime =
      1 + ([arrayBufferToBase64 [0, 0]].map chunkDuration).sum ∧
    (playChunks 1 [arrayBufferToBase64 [0, 0]]
        (PlaybackState.mk true 0 none true [] [])).responseStartTime =
      some 1 := by
  have hdec : ∀ s ∈ [arrayBufferToBase64 [0, 0]], decodableChunk s := by
    intro s hs
    rw [List.mem_singleton] at hs
    subst hs
    exact ⟨[0, 0], by decide, by decide⟩
  have key := claim_C3 [arrayBufferToBase64 [0, 0]] 1
    (PlaybackState.mk true 0 none true [] []) rfl (by norm_num) rfl hdec
  exact ⟨key.1, (key.2 (by simp)).1, (key.2 (by simp)).2.1⟩
